import Mathlib

/-!
Shallow embedding of the Bloodhound relation graph engine
(`bloodhound_relations/bhrelations/api.py`, class `RelationsSystem`).

Python strings are modelled as Lean `String`s (and, for the resource-key
locator where we reason about arbitrary string contents, as `List Char`).
The persistent relation table is modelled as a `List Relation` in row
insertion order.  `bhrelations/model.py` (the `Relation` storage model) is
not part of the sources; its insert/delete/select operations are modelled
from the spec (sections 3 and 4.3).  The recursive cycle search of
`RelationsSystem._find_cycle` is embedded with an explicit fuel parameter:
a result of `none` means the recursion exceeded the given depth, and a
computation that yields `none` for every fuel is one that recurses
forever in the reference implementation.
-/

namespace Bloodhound

/-- A stored relation row: the columns (source, destination, type, comment)
of the relations table.  Modelled from the spec: section 3, "Relation
(edge): `\x7bsource, destination, type, comment\x7d`"; the `Relation` class of
`bhrelations/model.py` is not among the sources. -/
structure Relation where
  source : String
  destination : String
  type : String
  comment : Option String := none
deriving DecidableEq, Repr

/-- Uncaught errors of `RelationsSystem` that the embedding makes
explicit: `ValueError` from tuple unpacking in `_parse_relation_id`,
`KeyError` from a missing dict key (`link_ends_map`, `_blockers`,
`_labels`), `TypeError` from calling `find_blockers` with a wrong number
of arguments, and `duplicateRelation` for the store-level duplicate-key
violation raised by `Relation.insert` (the spec's `DuplicateRelation`,
sections 4.3 and 7). -/
inductive PyError where
  | valueError
  | keyError
  | typeError
  | duplicateRelation
deriving DecidableEq, Repr

instance {ε α : Type} [DecidableEq ε] [DecidableEq α] :
    DecidableEq (Except ε α) := fun x y =>
  match x, y with
  | Except.ok a, Except.ok b =>
    if h : a = b then isTrue (by rw [h])
    else isFalse (by intro hc; cases hc; exact h rfl)
  | Except.ok _, Except.error _ => isFalse (by intro hc; cases hc)
  | Except.error _, Except.ok _ => isFalse (by intro hc; cases hc)
  | Except.error a, Except.error b =>
    if h : a = b then isTrue (by rw [h])
    else isFalse (by intro hc; cases hc; exact h rfl)

/-- The outcome of the links configuration scan `_get_links_config`
(api.py lines 226-270): the link end pairs, and the label / validator /
blocker dictionaries.  Dictionaries are modelled as association lists with
distinct keys (the configuration scan writes each configured end once). -/
structure LinksConfig where
  links : List (String × Option String)
  labels : List (String × String)
  validators : List (String × String)
  blockers : List (String × Bool)

/-- Python `dict.get`: first matching key of an association list (the
modelled dictionaries bind each key once). -/
def lookupDict {α : Type} : List (String × α) → String → Option α
  | [], _ => none
  | (k, v) :: rest, key => if key = k then some v else lookupDict rest key

/-- Overwriting insertion into a dictionary modelled as a lookup
function. -/
def dictInsert {α : Type} (m : String → Option α) (k : String) (v : α) :
    String → Option α :=
  fun x => if x = k then some v else m x

/-- `RelationsSystem.__init__` (api.py lines 109-113): `link_ends_map`
maps `end1` to `end2` (which is `None` for a unidirectional type) and,
when `end2` is present, `end2` back to `end1`.  A result of `none` means
the relation type is not configured at all (a Python `KeyError` on
subscripting). -/
def linkEndsMap (links : List (String × Option String)) :
    String → Option (Option String) :=
  links.foldl
    (fun m e =>
      let m1 := dictInsert m e.1 e.2
      match e.2 with
      | some end2 => dictInsert m1 end2 (some e.1)
      | none => m1)
    (fun _ => none)

/-- `RelationsSystem.PARENT_RELATION_TYPE` (api.py line 99). -/
def PARENT_RELATION_TYPE : String := "parent"

/-- Stable insertion of a row into a sorted list, for modelling the SQL
`ORDER BY` of `Relation.select`. -/
def insertSorted (le : Relation → Relation → Bool) (r : Relation) :
    List Relation → List Relation
  | [] => [r]
  | x :: xs => if le r x then r :: x :: xs else x :: insertSorted le r xs

/-- Deterministic stable sort modelling the SQL `ORDER BY` of
`Relation.select`. -/
def sortBy (le : Relation → Relation → Bool) : List Relation → List Relation
  | [] => []
  | x :: xs => insertSorted le x (sortBy le xs)

/-- Code-point lexicographic strict comparison of Python strings, on the
underlying character lists. -/
def strLtAux : List Char → List Char → Bool
  | [], [] => false
  | [], _ :: _ => true
  | _ :: _, [] => false
  | a :: as, b :: bs =>
    if a.val.toNat < b.val.toNat then true
    else if b.val.toNat < a.val.toNat then false
    else strLtAux as bs

/-- Code-point lexicographic strict comparison of Python strings. -/
def strLt (a b : String) : Bool := strLtAux a.data b.data

/-- Code-point lexicographic comparison of Python strings. -/
def strLe (a b : String) : Bool := strLt a b || a == b

/-- Comparator for `order_by=["destination"]`. -/
def leByDestination (a b : Relation) : Bool :=
  strLe a.destination b.destination

/-- Comparator for `order_by=["type", "destination"]`. -/
def leByTypeDestination (a b : Relation) : Bool :=
  strLt a.type b.type ||
    (a.type == b.type && strLe a.destination b.destination)

/-- `RelationsSystem._select_relations_by_source` with a type filter
(api.py lines 198-212): rows whose source and type match, ordered by
destination.  `Relation.select` itself is modelled from the spec:
section 4.3, query-by-equality with deterministic ordering
(`bhrelations/model.py` is not among the sources). -/
def selectBySourceType (st : List Relation) (source rtype : String) :
    List Relation :=
  sortBy leByDestination
    (st.filter (fun r => r.source == source && r.type == rtype))

/-- `RelationsSystem._select_relations_by_source` without a type filter
(api.py lines 198-212): rows whose source matches, ordered by
(type, destination). -/
def selectBySource (st : List Relation) (source : String) : List Relation :=
  sortBy leByTypeDestination (st.filter (fun r => r.source == source))

/-- Whether a row matches the key triple used by `Relation.delete`
(source, destination, type). -/
def keyMatch (r : Relation) (s d t : String) : Bool :=
  r.source == s && r.destination == d && r.type == t

/-- Deletion by key triple.  Modelled from the spec: section 4.3,
`delete` "removes the matching row(s); deleting a non-existent relation is
a no-op" (`bhrelations/model.py` is not among the sources). -/
def deleteByKeys (st : List Relation) (s d t : String) : List Relation :=
  st.filter (fun r => !(keyMatch r s d t))

/-- `Relation.clone_reverted`: the reverse edge of a paired relation.
Modelled from the spec: section 3 lifecycle, "a second Relation (roles
swapped, type = paired type)" (`bhrelations/model.py` is not among the
sources). -/
def cloneReverted (r : Relation) (otherEnd : String) : Relation :=
  { source := r.destination, destination := r.source,
    type := otherEnd, comment := r.comment }

/-- One step of the `for linked_relation in relations:` loop of
`RelationsSystem._find_cycle` (api.py lines 410-414), with the recursive
call abstracted as `recur`.  `none` propagates fuel exhaustion,
`some (some c)` is a found cycle, `some none` means every branch was
explored without finding one. -/
def findCycleLoop (recur : Relation → Option (Option (List String))) :
    List Relation → Option (Option (List String))
  | [] => some none
  | r :: rs =>
    match recur r with
    | none => none
    | some (some c) => some (some c)
    | some none => findCycleLoop recur rs

/-- `RelationsSystem._find_cycle` (api.py lines 398-415), embedded with a
fuel bound on the recursion depth.  `source_to_check` is the proposed
edge source; the search follows stored edges of the proposed type forward
from the current destination, accumulating the path of visited
destinations.  Python list mutation plus `copy(path)` per branch is
equivalent to the purely functional path passing used here. -/
def findCycle (st : List Relation) (sourceToCheck : String) :
    Nat → Relation → List String → Option (Option (List String))
  | 0, _, _ => none
  | fuel + 1, rel, path =>
    if sourceToCheck = rel.destination then
      some (some (path ++ [rel.destination]))
    else
      findCycleLoop
        (fun r => findCycle st sourceToCheck fuel r (path ++ [rel.destination]))
        (selectBySourceType st rel.destination rel.type)

/-- `RelationsSystem._validate_no_cycle` (api.py lines 362-369).  The
external resource renderer `_get_resource_name_from_id` (trac resource
machinery, outside the sources) is the abstract parameter `rn`.  Note the
Python message `'Cycle in ''%s'': %s'` is the concatenation of adjacent
string literals, i.e. `"Cycle in %s: %s"`. -/
def validateNoCycle (cfg : LinksConfig) (rn : String → String)
    (st : List Relation) (rel : Relation) (fuel : Nat) :
    Option (Except PyError (Option String)) :=
  match findCycle st rel.source fuel rel [] with
  | none => none
  | some none => some (Except.ok none)
  | some (some cycle) =>
    match lookupDict cfg.labels rel.type with
    | none => some (Except.error PyError.keyError)
    | some label =>
      some (Except.ok (some ("Cycle in " ++ label ++ ": " ++
        String.intercalate " -> " (cycle.map rn))))

/-- Python truthiness of the validator result
(`if cycle_validation:`). -/
def truthy : Option String → Bool
  | none => false
  | some s => !s.isEmpty

/-- `RelationsSystem._validate_parent` (api.py lines 371-389): first the
cycle check, then — for the designated hierarchical type — rejection when
the source already has an outgoing relation of the same type. -/
def validateParent (cfg : LinksConfig) (rn : String → String)
    (st : List Relation) (rel : Relation) (fuel : Nat) :
    Option (Except PyError (Option String)) :=
  match validateNoCycle cfg rn st rel fuel with
  | none => none
  | some (Except.error e) => some (Except.error e)
  | some (Except.ok cycleValidation) =>
    if truthy cycleValidation then some (Except.ok cycleValidation)
    else if rel.type = PARENT_RELATION_TYPE then
      let parentRelations := selectBySourceType st rel.source rel.type
      if parentRelations.length ≠ 0 then
        match lookupDict cfg.labels rel.type with
        | none => some (Except.error PyError.keyError)
        | some label =>
          some (Except.ok (some ("Multiple links in '" ++ label ++ "': #" ++
            rn rel.source ++ " -> [" ++
            String.intercalate ", "
              (parentRelations.map (fun r => rn r.destination)) ++ "]")))
      else some (Except.ok none)
    else some (Except.ok none)

/-- `RelationsSystem._validate_any` (api.py lines 395-396). -/
def validateAny : Option (Except PyError (Option String)) :=
  some (Except.ok none)

/-- `RelationsSystem.validate` composed with `_get_validator` (api.py
lines 319-323 and 350-360): the validator is chosen by the configured
validator tag of the proposed relation type; the `parent_child` validator
applies only when the type is the designated hierarchical type. -/
def validate (cfg : LinksConfig) (rn : String → String) (st : List Relation)
    (rel : Relation) (fuel : Nat) : Option (Except PyError (Option String)) :=
  if lookupDict cfg.validators rel.type = some "no_cycle" then
    validateNoCycle cfg rn st rel fuel
  else if lookupDict cfg.validators rel.type = some "parent_child" ∧
      rel.type = PARENT_RELATION_TYPE then
    validateParent cfg rn st rel fuel
  else validateAny

/-- The observable outcome of `RelationsSystem.add_relation`, carrying the
state of the relation table after the call. -/
inductive AddResult where
  | ok (store : List Relation)
  | validationError (reason : String) (store : List Relation)
  | runtimeError (e : PyError) (store : List Relation)
deriving DecidableEq, Repr

/-- Whether a row with the given (source, destination, type) triple is
already stored.  Modelled from the spec: section 4.3, `insert` "fails
with `DuplicateRelation` if the (source, destination, type) triple
already exists" (section 6: the table is unique on that triple);
`bhrelations/model.py` is not among the sources. -/
def tripleExists (st : List Relation) (s d t : String) : Bool :=
  st.any (fun r => keyMatch r s d t)

/-- `RelationsSystem.add_relation` (api.py lines 135-143): validate (a
non-`None` validator result raises `ValidationError` with that result as
message, before anything is written), then insert the relation and, when
`link_ends_map` pairs its type with another end, the reverted relation,
inside one transaction.  Each insert fails with the spec-modelled
`DuplicateRelation` when its (source, destination, type) triple is
already present; that failure, like a `KeyError` from `link_ends_map`,
aborts the transaction, rolling any prior insert back.  `none` means
validation never returned (unbounded recursion in the cycle search). -/
def addRelation (cfg : LinksConfig) (rn : String → String)
    (st : List Relation) (rel : Relation) (fuel : Nat) : Option AddResult :=
  match validate cfg rn st rel fuel with
  | none => none
  | some (Except.error e) => some (AddResult.runtimeError e st)
  | some (Except.ok (some reason)) => some (AddResult.validationError reason st)
  | some (Except.ok none) =>
    if tripleExists st rel.source rel.destination rel.type then
      some (AddResult.runtimeError PyError.duplicateRelation st)
    else
      match linkEndsMap cfg.links rel.type with
      | none => some (AddResult.runtimeError PyError.keyError st)
      | some none => some (AddResult.ok (st ++ [rel]))
      | some (some otherEnd) =>
        if tripleExists (st ++ [rel]) rel.destination rel.source otherEnd then
          some (AddResult.runtimeError PyError.duplicateRelation st)
        else
          some (AddResult.ok (st ++ [rel, cloneReverted rel otherEnd]))

/-- `RelationsSystem.add` (api.py lines 118-133): resolve the resource
instances to ids (taken here as the already-resolved id strings), build
the relation and call `add_relation`.  The method body has no `return`
statement, so its Python return value — the second component — is always
`None`. -/
def add (cfg : LinksConfig) (rn : String → String) (st : List Relation)
    (source destination relationType : String) (comment : Option String)
    (fuel : Nat) : Option (AddResult × Option String) :=
  match addRelation cfg rn st
      { source := source, destination := destination,
        type := relationType, comment := comment } fuel with
  | none => none
  | some r => some (r, none)

/-- The observable outcome of a deletion, carrying the state of the
relation table after the call. -/
inductive OpResult where
  | ok (store : List Relation)
  | error (e : PyError) (store : List Relation)
deriving DecidableEq, Repr

/-- `RelationsSystem._delete_relation` (api.py lines 160-173): inside one
transaction, delete the addressed row and, when `link_ends_map` pairs its
type, the reverted row (swapped endpoints, paired type).  A `KeyError`
aborts the transaction leaving the table unchanged. -/
def deleteRelation (cfg : LinksConfig) (st : List Relation)
    (s d t : String) : OpResult :=
  match linkEndsMap cfg.links t with
  | none => OpResult.error PyError.keyError st
  | some none => OpResult.ok (deleteByKeys st s d t)
  | some (some otherEnd) =>
    OpResult.ok (deleteByKeys (deleteByKeys st s d t) d s otherEnd)

/-- `RelationsSystem._create_relation_id` (api.py lines 214-218): the
comma-join of the triple (source, destination, type), written out for
the three components. -/
def createRelationId (r : Relation) : String :=
  r.source ++ "," ++ r.destination ++ "," ++ r.type

/-- `RelationsSystem._parse_relation_id` (api.py lines 220-223):
`relation_id.split(',')` unpacked into exactly three parts; any other
number of parts raises a Python `ValueError`, modelled as `none`. -/
def parseRelationId (relationId : String) : Option (String × String × String) :=
  match (relationId.data.splitOn ',').map String.mk with
  | [s, d, t] => some (s, d, t)
  | _ => none

/-- `RelationsSystem.delete` (api.py lines 145-158): parse the relation
id and delete both directions.  A malformed id fails before anything is
read or written. -/
def delete (cfg : LinksConfig) (st : List Relation) (relationId : String) :
    OpResult :=
  match parseRelationId relationId with
  | none => OpResult.error PyError.valueError st
  | some (s, d, t) => deleteRelation cfg st s d t

/-- `RelationsSystem.is_blocker` (api.py lines 347-348): the `_blockers`
dict subscript; a missing key is a Python `KeyError`. -/
def isBlocker (cfg : LinksConfig) (relationType : String) :
    Except PyError Bool :=
  match lookupDict cfg.blockers relationType with
  | none => Except.error PyError.keyError
  | some b => Except.ok b

/-- The loop body of `RelationsSystem.can_be_resolved` (api.py lines
333-345).  For each outgoing relation whose type is flagged as blocking,
the reference code calls `self.find_blockers(relation)` — but
`find_blockers` (line 420) requires two arguments `(relation, blockers)`,
so the call raises `TypeError` before anything else happens (and the
message template below it references an unbound name `end`). -/
def canBeResolvedGo (cfg : LinksConfig) :
    List Relation → Except PyError (List String)
  | [] => Except.ok []
  | r :: rs =>
    match isBlocker cfg r.type with
    | Except.error e => Except.error e
    | Except.ok false => canBeResolvedGo cfg rs
    | Except.ok true => Except.error PyError.typeError

/-- `RelationsSystem.can_be_resolved` (api.py lines 333-345), with the
generator fully consumed: iterate the outgoing relations of the resource
in store order and collect the yielded rejection messages, or fail with
the runtime error the reference code raises. -/
def canBeResolved (cfg : LinksConfig) (st : List Relation)
    (resource : String) : Except PyError (List String) :=
  canBeResolvedGo cfg (selectBySource st resource)

/-- `RelationsSystem.get_resource_id_from_instance` (api.py lines
272-280) at the level of the three id components, over Python strings
modelled as `List Char`: the colon-join of partition prefix, realm and
local id. -/
def serializeResourceId (partition realm localId : List Char) : List Char :=
  List.intercalate [':'] [partition, realm, localId]

/-- `RelationsSystem.split_full_id` (api.py lines 433-434):
`resource_full_id.split(':')`, splitting on every occurrence of the
delimiter, over Python strings modelled as `List Char`. -/
def splitFullId (s : List Char) : List (List Char) :=
  s.splitOn ':'

/-- Reflexive-transitive reachability along stored edges of one relation
type: a path of stored edges all of type `t` from `a` to `b` (the empty
path when `a = b`). -/
inductive Reaches (st : List Relation) (t : String) : String → String → Prop
  | refl (a : String) : Reaches st t a a
  | step {a b c : String} (r : Relation) (hr : r ∈ st) (hs : r.source = a)
      (ht : r.type = t) (hd : r.destination = b)
      (h : Reaches st t b c) : Reaches st t a c

/-- Consecutive elements of the list are linked by stored edges of type
`t`. -/
def Linked (st : List Relation) (t : String) : List String → Prop
  | [] => True
  | [_] => True
  | x :: y :: rest =>
    (∃ r, r ∈ st ∧ r.source = x ∧ r.destination = y ∧ r.type = t) ∧
      Linked st t (y :: rest)

/-! ### Helper lemmas -/

theorem mem_insertSorted (le : Relation → Relation → Bool) (r x : Relation) :
    ∀ l : List Relation, x ∈ insertSorted le r l ↔ x = r ∨ x ∈ l := by
  intro l
  induction l with
  | nil => simp [insertSorted]
  | cons y ys ih =>
    rw [insertSorted]
    by_cases h : le r y = true
    · rw [if_pos h]; simp [List.mem_cons]
    · rw [if_neg h]
      simp only [List.mem_cons, ih]
      tauto

theorem mem_sortBy (le : Relation → Relation → Bool) (x : Relation) :
    ∀ l : List Relation, x ∈ sortBy le l ↔ x ∈ l := by
  intro l
  induction l with
  | nil => simp [sortBy]
  | cons y ys ih => simp [sortBy, mem_insertSorted, ih]

theorem mem_selectBySourceType (st : List Relation) (s t : String)
    (r : Relation) :
    r ∈ selectBySourceType st s t ↔ r ∈ st ∧ r.source = s ∧ r.type = t := by
  simp [selectBySourceType, mem_sortBy, List.mem_filter, and_assoc]

theorem findCycleLoop_eq_some_none
    (recur : Relation → Option (Option (List String))) :
    ∀ rs : List Relation, findCycleLoop recur rs = some none →
      ∀ r ∈ rs, recur r = some none := by
  intro rs
  induction rs with
  | nil => intro _ r hr; cases hr
  | cons x xs ih =>
    intro h r hr
    rw [findCycleLoop] at h
    rcases hx : recur x with _ | ⟨_ | c⟩ <;> rw [hx] at h
    · cases h
    · rcases List.mem_cons.mp hr with rfl | hr2
      · exact hx
      · exact ih h r hr2
    · cases h

theorem findCycleLoop_eq_some_some
    (recur : Relation → Option (Option (List String))) :
    ∀ (rs : List Relation) (c : List String),
      findCycleLoop recur rs = some (some c) →
      ∃ r ∈ rs, recur r = some (some c) := by
  intro rs
  induction rs with
  | nil => intro c h; cases h
  | cons x xs ih =>
    intro c h
    rw [findCycleLoop] at h
    rcases hx : recur x with _ | ⟨_ | c2⟩ <;> rw [hx] at h
    · cases h
    · obtain ⟨r, hr, hrec⟩ := ih c h
      exact ⟨r, List.mem_cons_of_mem x hr, hrec⟩
    · cases h
      exact ⟨x, List.mem_cons_self x xs, hx⟩

/-- Completeness of the embedded search: when `_find_cycle` terminates
reporting no cycle, no stored same-type path leads from the current
destination back to the checked source. -/
theorem findCycle_none_not_reaches (st : List Relation) (src : String) :
    ∀ (fuel : Nat) (rel : Relation) (path : List String),
      findCycle st src fuel rel path = some none →
      ¬ Reaches st rel.type rel.destination src := by
  intro fuel
  induction fuel with
  | zero => intro rel path h; cases h
  | succ n ih =>
    intro rel path h hre
    rw [findCycle] at h
    by_cases hd : src = rel.destination
    · rw [if_pos hd] at h; cases h
    · rw [if_neg hd] at h
      cases hre with
      | refl => exact hd rfl
      | step r hr hs ht hdst hrest =>
        have hmem : r ∈ selectBySourceType st rel.destination rel.type :=
          (mem_selectBySourceType st rel.destination rel.type r).mpr
            ⟨hr, hs, ht⟩
        have hrec := findCycleLoop_eq_some_none _ _ h r hmem
        have := ih r (path ++ [rel.destination]) hrec
        rw [ht, hdst] at this
        exact this hrest

/-- Soundness of the embedded search: a reported cycle extends the
accumulated path with a chain of stored same-type edges that starts at the
current destination and ends at the checked source. -/
theorem findCycle_some_chain (st : List Relation) (src : String) :
    ∀ (fuel : Nat) (rel : Relation) (path c : List String),
      findCycle st src fuel rel path = some (some c) →
      ∃ tail, c = path ++ tail ∧ tail.head? = some rel.destination ∧
        tail.getLast? = some src ∧ Linked st rel.type tail := by
  intro fuel
  induction fuel with
  | zero => intro rel path c h; cases h
  | succ n ih =>
    intro rel path c h
    rw [findCycle] at h
    by_cases hd : src = rel.destination
    · rw [if_pos hd] at h
      cases h
      refine ⟨[rel.destination], rfl, rfl, ?_, trivial⟩
      rw [hd]
      rfl
    · rw [if_neg hd] at h
      obtain ⟨r, hmem, hrec⟩ := findCycleLoop_eq_some_some _ _ _ h
      obtain ⟨hr, hs, ht⟩ :=
        (mem_selectBySourceType st rel.destination rel.type r).mp hmem
      obtain ⟨tail, hc, hhead, hlast, hlink⟩ :=
        ih r (path ++ [rel.destination]) c hrec
      rcases tail with _ | ⟨y, rest⟩
      · cases hhead
      · cases hhead
        refine ⟨rel.destination :: r.destination :: rest, ?_, rfl, ?_, ?_⟩
        · rw [hc]; simp
        · rw [← hlast]; rfl
        · constructor
          · exact ⟨r, hr, hs, rfl, ht⟩
          · rw [← ht]; exact hlink

/-- A chain of stored same-type edges from `a` to `b` witnesses
reachability. -/
theorem linked_chain_reaches (st : List Relation) (t : String) :
    ∀ (tail : List String) (a b : String), tail.head? = some a →
      tail.getLast? = some b → Linked st t tail → Reaches st t a b := by
  intro tail
  induction tail with
  | nil => intro a b h; cases h
  | cons x xs ih =>
    intro a b hhead hlast hlink
    cases hhead
    rcases xs with _ | ⟨y, rest⟩
    · cases hlast
      exact Reaches.refl x
    · obtain ⟨⟨r, hr, hs, hdst, ht⟩, hlink2⟩ := hlink
      have hlast2 : (y :: rest).getLast? = some b := by
        rw [← hlast]; rfl
      exact Reaches.step r hr hs ht hdst (ih y b rfl hlast2 hlink2)

/-! ### Concrete fixtures

Concrete registry configurations and stores used to instantiate the
theorems.  `rn0` is a concrete stand-in for the external resource-name
renderer `_get_resource_name_from_id` (trac machinery outside these
sources): it renders a resource id as itself. -/

def rn0 : String → String := id

/-- Registry for `blocks = blocks, blocked_by` with `blocks.blocks =
true` (the scenario of the spec, section 8): a paired type flagged as
blocking resolution, no validator. -/
def cfgBlocks : LinksConfig :=
  { links := [("blocks", some "blocked_by")]
  , labels := [("blocks", "Blocks"), ("blocked_by", "Blocked_by")]
  , validators := []
  , blockers := [("blocks", true), ("blocked_by", false)] }

/-- Registry holding both a paired type (`blocks = blocks, blocked_by`)
and an unpaired one (`solo = solo`), with no validators. -/
def cfgBoth : LinksConfig :=
  { links := [("blocks", some "blocked_by"), ("solo", none)]
  , labels := [("blocks", "Blocks"), ("blocked_by", "Blocked_by"),
               ("solo", "Solo")]
  , validators := []
  , blockers := [("blocks", true), ("blocked_by", false), ("solo", false)] }

/-- Registry for `parent = parent, child` with validator `parent_child`
(the scenario of the spec, section 8). -/
def cfgParent : LinksConfig :=
  { links := [("parent", some "child")]
  , labels := [("parent", "Parent"), ("child", "Child")]
  , validators := [("parent", "parent_child"), ("child", "parent_child")]
  , blockers := [("parent", false), ("child", false)] }

/-- Registry with a single unpaired type `T` carrying the `no_cycle`
validator. -/
def cfgT : LinksConfig :=
  { links := [("T", none)]
  , labels := [("T", "T")]
  , validators := [("T", "no_cycle")]
  , blockers := [("T", false)] }

/-- Registry whose type `subtask` carries the `parent_child` validator
tag although `subtask` is not the designated hierarchical type name. -/
def cfgSubtask : LinksConfig :=
  { links := [("subtask", none)]
  , labels := [("subtask", "Subtask")]
  , validators := [("subtask", "parent_child")]
  , blockers := [("subtask", false)] }

/-- Store after `add(t1, t2, "parent")` under `cfgParent`. -/
def stParent : List Relation :=
  [{ source := "t1", destination := "t2", type := "parent", comment := none },
   { source := "t2", destination := "t1", type := "child", comment := none }]

/-- The proposed second parent edge `t1 -> t3`. -/
def relT13 : Relation :=
  { source := "t1", destination := "t3", type := "parent", comment := none }

/-- Store after `add(t1, t2, "blocks")` under `cfgBlocks`. -/
def stBlocks2 : List Relation :=
  [{ source := "t1", destination := "t2", type := "blocks", comment := none },
   { source := "t2", destination := "t1", type := "blocked_by", comment := none }]

/-- A pre-existing two-edge cycle of type `T`: `b -> c -> b`. -/
def stCycle : List Relation :=
  [{ source := "b", destination := "c", type := "T", comment := none },
   { source := "c", destination := "b", type := "T", comment := none }]

/-- A store holding both a same-type path `b -> a` and, explored first
(destination `"0"` sorts before destination `"a"`), a branch `b -> 0`
into the pre-existing loop `0 -> 0`, all of type `T`. -/
def stDiverge : List Relation :=
  [{ source := "b", destination := "0", type := "T", comment := none },
   { source := "0", destination := "0", type := "T", comment := none },
   { source := "b", destination := "a", type := "T", comment := none }]

/-- The proposed edge `a -> b` of type `T`. -/
def relAB : Relation :=
  { source := "a", destination := "b", type := "T", comment := none }

/-! ### Divergence of the cycle search on cyclic stores -/

theorem findCycle_stCycle_no_fuel :
    ∀ (fuel : Nat) (path : List String),
      findCycle stCycle "a" fuel
        { source := "b", destination := "c", type := "T", comment := none }
        path = none ∧
      findCycle stCycle "a" fuel
        { source := "c", destination := "b", type := "T", comment := none }
        path = none := by
  intro fuel
  induction fuel with
  | zero => intro path; exact ⟨rfl, rfl⟩
  | succ n ih =>
    intro path
    constructor
    · rw [findCycle, if_neg (by decide)]
      show findCycleLoop
        (fun r => findCycle stCycle "a" n r (path ++ ["c"]))
        (selectBySourceType stCycle "c" "T") = none
      have hsel : selectBySourceType stCycle "c" "T" =
          [{ source := "c", destination := "b", type := "T", comment := none }] := by
        decide
      rw [hsel, findCycleLoop, (ih (path ++ ["c"])).2]
    · rw [findCycle, if_neg (by decide)]
      show findCycleLoop
        (fun r => findCycle stCycle "a" n r (path ++ ["b"]))
        (selectBySourceType stCycle "b" "T") = none
      have hsel : selectBySourceType stCycle "b" "T" =
          [{ source := "b", destination := "c", type := "T", comment := none }] := by
        decide
      rw [hsel, findCycleLoop, (ih (path ++ ["b"])).1]

theorem findCycle_stDiverge_loop_no_fuel :
    ∀ (fuel : Nat) (path : List String),
      findCycle stDiverge "a" fuel
        { source := "0", destination := "0", type := "T", comment := none }
        path = none := by
  intro fuel
  induction fuel with
  | zero => intro path; rfl
  | succ n ih =>
    intro path
    rw [findCycle, if_neg (by decide)]
    show findCycleLoop
      (fun r => findCycle stDiverge "a" n r (path ++ ["0"]))
      (selectBySourceType stDiverge "0" "T") = none
    have hsel : selectBySourceType stDiverge "0" "T" =
        [{ source := "0", destination := "0", type := "T", comment := none }] := by
      decide
    rw [hsel, findCycleLoop, ih (path ++ ["0"])]

/-! ### Validator dispatch -/

theorem validate_dispatch_no_cycle (cfg : LinksConfig) (rn : String → String)
    (st : List Relation) (rel : Relation) (fuel : Nat)
    (h : lookupDict cfg.validators rel.type = some "no_cycle") :
    validate cfg rn st rel fuel = validateNoCycle cfg rn st rel fuel := by
  simp [validate, h]

theorem validate_dispatch_parent (cfg : LinksConfig) (rn : String → String)
    (st : List Relation) (rel : Relation) (fuel : Nat)
    (h : lookupDict cfg.validators rel.type = some "parent_child")
    (ht : rel.type = PARENT_RELATION_TYPE) :
    validate cfg rn st rel fuel = validateParent cfg rn st rel fuel := by
  unfold validate
  rw [if_neg (by rw [h]; decide), if_pos ⟨h, ht⟩]

theorem validateNoCycle_diverges (cfg : LinksConfig) (rn : String → String)
    (st : List Relation) (rel : Relation) (fuel : Nat)
    (h : findCycle st rel.source fuel rel [] = none) :
    validateNoCycle cfg rn st rel fuel = none := by
  unfold validateNoCycle
  rw [h]

theorem findCycle_stCycle_top :
    ∀ fuel : Nat, findCycle stCycle "a" fuel relAB [] = none := by
  intro fuel
  cases fuel with
  | zero => rfl
  | succ n =>
    rw [findCycle, if_neg (by decide)]
    show findCycleLoop
      (fun r => findCycle stCycle "a" n r ["b"])
      (selectBySourceType stCycle "b" "T") = none
    have hsel : selectBySourceType stCycle "b" "T" =
        [{ source := "b", destination := "c", type := "T", comment := none }] := by
      decide
    rw [hsel, findCycleLoop, (findCycle_stCycle_no_fuel n ["b"]).1]

theorem findCycle_stDiverge_top :
    ∀ fuel : Nat, findCycle stDiverge "a" fuel relAB [] = none := by
  intro fuel
  cases fuel with
  | zero => rfl
  | succ n =>
    rw [findCycle, if_neg (by decide)]
    show findCycleLoop
      (fun r => findCycle stDiverge "a" n r ["b"])
      (selectBySourceType stDiverge "b" "T") = none
    have hsel : selectBySourceType stDiverge "b" "T" =
        [{ source := "b", destination := "0", type := "T", comment := none },
         { source := "b", destination := "a", type := "T", comment := none }] := by
      decide
    rw [hsel, findCycleLoop]
    have hb0 : findCycle stDiverge "a" n
        { source := "b", destination := "0", type := "T", comment := none }
        ["b"] = none := by
      cases n with
      | zero => rfl
      | succ m =>
        rw [findCycle, if_neg (by decide)]
        show findCycleLoop
          (fun r => findCycle stDiverge "a" m r ["b", "0"])
          (selectBySourceType stDiverge "0" "T") = none
        have hsel0 : selectBySourceType stDiverge "0" "T" =
            [{ source := "0", destination := "0", type := "T", comment := none }] := by
          decide
        rw [hsel0, findCycleLoop,
          findCycle_stDiverge_loop_no_fuel m ["b", "0"]]
    rw [hb0]

theorem deleteByKeys_deleteByKeys (st : List Relation)
    (s d t s2 d2 t2 : String) :
    deleteByKeys (deleteByKeys st s d t) s2 d2 t2 =
      st.filter (fun r => !(keyMatch r s d t) && !(keyMatch r s2 d2 t2)) := by
  unfold deleteByKeys
  rw [List.filter_filter]
  refine List.filter_congr ?_
  intro r _
  rw [Bool.and_comm]

theorem intercalate_three (x y z : List Char) :
    List.intercalate [','] [x, y, z] = x ++ ',' :: (y ++ ',' :: z) := by
  simp [List.intercalate, List.intersperse]

/-- Parsing inverts `_create_relation_id` when no component contains the
`,` delimiter. -/
theorem parse_createRelationId (r : Relation)
    (hs : ',' ∉ r.source.data) (hd : ',' ∉ r.destination.data)
    (ht : ',' ∉ r.type.data) :
    parseRelationId (createRelationId r) =
      some (r.source, r.destination, r.type) := by
  unfold parseRelationId createRelationId
  have hdata : (r.source ++ "," ++ r.destination ++ "," ++ r.type).data =
      List.intercalate [','] [r.source.data, r.destination.data, r.type.data] := by
    rw [intercalate_three]
    show r.source.data ++ (",").data ++ r.destination.data ++ (",").data ++
      r.type.data = _
    simp
  have hsplit : List.splitOn ','
      (r.source ++ "," ++ r.destination ++ "," ++ r.type).data =
      [r.source.data, r.destination.data, r.type.data] := by
    rw [hdata]
    refine List.splitOn_intercalate
      [r.source.data, r.destination.data, r.type.data] ',' ?_ (by simp)
    intro l hl
    simp only [List.mem_cons, List.not_mem_nil, or_false] at hl
    rcases hl with rfl | rfl | rfl
    · exact hs
    · exact hd
    · exact ht
  rw [hsplit]
  rfl

theorem delete_parsed (cfg : LinksConfig) (st : List Relation)
    (relationId s d t : String)
    (h : parseRelationId relationId = some (s, d, t)) :
    delete cfg st relationId = deleteRelation cfg st s d t := by
  unfold delete
  rw [h]

theorem deleteRelation_paired (cfg : LinksConfig) (st : List Relation)
    (s d t tp : String) (h : linkEndsMap cfg.links t = some (some tp)) :
    deleteRelation cfg st s d t =
      OpResult.ok (st.filter
        (fun r => !(keyMatch r s d t) && !(keyMatch r d s tp))) := by
  unfold deleteRelation
  rw [h]
  show OpResult.ok (deleteByKeys (deleteByKeys st s d t) d s tp) = _
  rw [deleteByKeys_deleteByKeys]

theorem filter_drop_rows (st : List Relation) (row1 row2 : Relation)
    (p : Relation → Bool) (h1 : p row1 = false) (h2 : p row2 = false) :
    (st ++ [row1, row2]).filter p = st.filter p := by
  rw [List.filter_append]
  simp [h1, h2]

/-! ### The claims -/

/-- C1: adding a relation whose type is paired creates exactly two stored
rows — the proposed edge and a reverse edge with source/destination
swapped and type replaced by the paired type — while adding a relation of
an unpaired type creates exactly one row; and deleting a relation by key
of either direction deletes both the forward and the reverse row. -/
theorem claim1_add_delete_pairing (cfg : LinksConfig) (rn : String → String)
    (st : List Relation) (rel1 rel2 : Relation) (fuel : Nat)
    (other s d t tp : String)
    (hv1 : validate cfg rn st rel1 fuel = some (Except.ok none))
    (hpair1 : linkEndsMap cfg.links rel1.type = some (some other))
    (hf1 : tripleExists st rel1.source rel1.destination rel1.type = false)
    (hf1r : tripleExists (st ++ [rel1]) rel1.destination rel1.source other
      = false)
    (hv2 : validate cfg rn st rel2 fuel = some (Except.ok none))
    (hun : linkEndsMap cfg.links rel2.type = some none)
    (hf2 : tripleExists st rel2.source rel2.destination rel2.type = false)
    (hpt : linkEndsMap cfg.links t = some (some tp))
    (hptp : linkEndsMap cfg.links tp = some (some t)) :
    addRelation cfg rn st rel1 fuel =
      some (AddResult.ok (st ++ [rel1,
        { source := rel1.destination, destination := rel1.source,
          type := other, comment := rel1.comment }])) ∧
    addRelation cfg rn st rel2 fuel =
      some (AddResult.ok (st ++ [rel2])) ∧
    deleteRelation cfg st s d t =
      OpResult.ok (st.filter
        (fun r => !(keyMatch r s d t) && !(keyMatch r d s tp))) ∧
    deleteRelation cfg st d s tp =
      OpResult.ok (st.filter
        (fun r => !(keyMatch r s d t) && !(keyMatch r d s tp))) := by
  refine ⟨?_, ?_, ?_, ?_⟩
  · unfold addRelation
    simp only [hv1, hf1, hpair1, hf1r, Bool.false_eq_true, if_false,
      cloneReverted]
  · unfold addRelation
    simp only [hv2, hf2, hun, Bool.false_eq_true, if_false]
  · unfold deleteRelation
    rw [hpt]
    show OpResult.ok (deleteByKeys (deleteByKeys st s d t) d s tp) =
      OpResult.ok (st.filter
        (fun r => !(keyMatch r s d t) && !(keyMatch r d s tp)))
    rw [deleteByKeys_deleteByKeys]
  · unfold deleteRelation
    rw [hptp]
    show OpResult.ok (deleteByKeys (deleteByKeys st d s tp) s d t) =
      OpResult.ok (st.filter
        (fun r => !(keyMatch r s d t) && !(keyMatch r d s tp)))
    rw [deleteByKeys_deleteByKeys]
    refine congrArg OpResult.ok (List.filter_congr ?_)
    intro r _
    rw [Bool.and_comm]

theorem claim1_add_delete_pairing_witness :
    validate cfgBoth rn0 []
      { source := "t1", destination := "t2", type := "blocks", comment := none }
      5 = some (Except.ok none) ∧
    linkEndsMap cfgBoth.links "blocks" = some (some "blocked_by") ∧
    validate cfgBoth rn0 []
      { source := "t1", destination := "t2", type := "solo", comment := none }
      5 = some (Except.ok none) ∧
    linkEndsMap cfgBoth.links "solo" = some none ∧
    linkEndsMap cfgBoth.links "blocked_by" = some (some "blocks") ∧
    tripleExists [] "t1" "t2" "blocks" = false ∧
    tripleExists
      [{ source := "t1", destination := "t2", type := "blocks", comment := none }]
      "t2" "t1" "blocked_by" = false ∧
    tripleExists [] "t1" "t2" "solo" = false ∧
    (addRelation cfgBoth rn0 []
        { source := "t1", destination := "t2", type := "blocks", comment := none }
        5 =
      some (AddResult.ok
        [{ source := "t1", destination := "t2", type := "blocks", comment := none },
         { source := "t2", destination := "t1", type := "blocked_by", comment := none }]) ∧
    addRelation cfgBoth rn0 []
        { source := "t1", destination := "t2", type := "solo", comment := none }
        5 =
      some (AddResult.ok
        [{ source := "t1", destination := "t2", type := "solo", comment := none }]) ∧
    deleteRelation cfgBoth [] "t1" "t2" "blocks" = OpResult.ok [] ∧
    deleteRelation cfgBoth [] "t2" "t1" "blocked_by" = OpResult.ok []) :=
  ⟨by decide, by decide, by decide, by decide, by decide, by decide,
    by decide, by decide,
    claim1_add_delete_pairing cfgBoth rn0 []
      { source := "t1", destination := "t2", type := "blocks", comment := none }
      { source := "t1", destination := "t2", type := "solo", comment := none }
      5 "blocked_by" "t1" "t2" "blocks" "blocked_by"
      (by decide) (by decide) (by decide) (by decide) (by decide) (by decide)
      (by decide) (by decide) (by decide)⟩

/-- C2: when validation of a proposed relation fails, `add_relation`
raises a `ValidationError` whose message is the validator's rejection
reason, and the stored relation set is unchanged. -/
theorem claim2_validation_failure_no_commit (cfg : LinksConfig)
    (rn : String → String) (st : List Relation) (rel : Relation)
    (fuel : Nat) (reason : String)
    (h : validate cfg rn st rel fuel = some (Except.ok (some reason))) :
    addRelation cfg rn st rel fuel =
      some (AddResult.validationError reason st) := by
  unfold addRelation
  rw [h]

theorem claim2_validation_failure_no_commit_witness :
    validate cfgParent rn0 stParent relT13 5 =
      some (Except.ok (some "Multiple links in 'Parent': #t1 -> [t2]")) ∧
    addRelation cfgParent rn0 stParent relT13 5 =
      some (AddResult.validationError
        "Multiple links in 'Parent': #t1 -> [t2]" stParent) :=
  ⟨by decide,
    claim2_validation_failure_no_commit cfgParent rn0 stParent relT13 5
      "Multiple links in 'Parent': #t1 -> [t2]" (by decide)⟩

/-- C5: the claim states that cycle detection terminates on every finite
stored edge set.  The code does not: on the two-edge cycle
`b -> c -> b` of type `T`, validating the proposed edge `a -> b` makes
`_find_cycle` recurse forever — the fuel embedding returns no verdict at
any recursion depth. -/
theorem claim5_find_cycle_diverges_on_existing_cycle :
    ∀ fuel : Nat, validate cfgT rn0 stCycle relAB fuel = none := by
  intro fuel
  rw [validate_dispatch_no_cycle cfgT rn0 stCycle relAB fuel (by decide)]
  exact validateNoCycle_diverges cfgT rn0 stCycle relAB fuel
    (findCycle_stCycle_top fuel)

/-- C6: the claim states that after `add(T1, T2, "blocks")` with `T2`
open, `can_be_resolved(T1)` produces exactly one rejection reason citing
`T2`.  The code instead raises `TypeError`: `can_be_resolved` calls
`self.find_blockers(relation)` with one argument, while `find_blockers`
requires two (`relation`, `blockers`); the message template below that
call also references an unbound name `end`. -/
theorem claim6_can_be_resolved_type_error :
    addRelation cfgBlocks rn0 []
      { source := "t1", destination := "t2", type := "blocks", comment := none }
      5 = some (AddResult.ok stBlocks2) ∧
    canBeResolved cfgBlocks stBlocks2 "t1" =
      Except.error PyError.typeError := by
  decide

/-- C8: `delete` called with a relation id that does not split on `,`
into exactly three parts fails (Python `ValueError` from tuple
unpacking, the spec's `MalformedRelationId`) and leaves the stored
relation set completely unchanged. -/
theorem claim8_malformed_relation_id_no_effect (cfg : LinksConfig)
    (st : List Relation) (relationId : String)
    (h : parseRelationId relationId = none) :
    delete cfg st relationId = OpResult.error PyError.valueError st := by
  unfold delete
  rw [h]

theorem claim8_malformed_relation_id_no_effect_witness :
    parseRelationId "onlytwo,parts" = none ∧
    delete cfgBlocks stBlocks2 "onlytwo,parts" =
      OpResult.error PyError.valueError stBlocks2 :=
  ⟨by decide,
    claim8_malformed_relation_id_no_effect cfgBlocks stBlocks2
      "onlytwo,parts" (by decide)⟩

/-- C10: for every relation type whose configured validator tag is
`parent_child` but whose name differs from the designated hierarchical
type name `parent`, `validate` approves every proposed relation
unconditionally: `_get_validator` falls through to `_validate_any`, so
no cycle check and no single-parent check is run. -/
theorem claim10_parent_child_tag_other_type_always_approves
    (cfg : LinksConfig) (rn : String → String) (st : List Relation)
    (rel : Relation) (fuel : Nat)
    (h : lookupDict cfg.validators rel.type = some "parent_child")
    (hne : rel.type ≠ PARENT_RELATION_TYPE) :
    validate cfg rn st rel fuel = some (Except.ok none) := by
  simp [validate, h, hne, validateAny]

theorem claim10_parent_child_tag_other_type_always_approves_witness :
    lookupDict cfgSubtask.validators "subtask" = some "parent_child" ∧
    "subtask" ≠ PARENT_RELATION_TYPE ∧
    validate cfgSubtask rn0 stCycle
      { source := "b", destination := "c", type := "subtask", comment := none }
      0 = some (Except.ok none) :=
  ⟨by decide, by decide,
    claim10_parent_child_tag_other_type_always_approves cfgSubtask rn0
      stCycle
      { source := "b", destination := "c", type := "subtask", comment := none }
      0 (by decide) (by decide)⟩

/-- C3 (amended): for every proposed edge whose type carries the
`no_cycle` validator tag, whenever the cycle search returns a verdict,
validation rejects the edge if and only if a path of stored edges all of
the proposed type leads from the edge destination back to its source
(including the degenerate case destination = source), and on rejection
the reason names the relation type via its label and lists the chain of
resources in traversal order.  (On a store whose reachable same-type
subgraph contains a pre-existing cycle the search may return no verdict
at any depth; see the counterexample.) -/
theorem claim3_no_cycle_verdict_iff_path (cfg : LinksConfig)
    (rn : String → String) (st : List Relation) (rel : Relation)
    (fuel : Nat) (v : Option String)
    (hval : lookupDict cfg.validators rel.type = some "no_cycle")
    (hterm : validate cfg rn st rel fuel = some (Except.ok v)) :
    ((∃ msg, v = some msg) ↔
      Reaches st rel.type rel.destination rel.source) ∧
    (∀ msg, v = some msg → ∃ label chain,
      lookupDict cfg.labels rel.type = some label ∧
      chain.head? = some rel.destination ∧
      chain.getLast? = some rel.source ∧
      Linked st rel.type chain ∧
      msg = "Cycle in " ++ label ++ ": " ++
        String.intercalate " -> " (chain.map rn)) := by
  rw [validate_dispatch_no_cycle cfg rn st rel fuel hval] at hterm
  unfold validateNoCycle at hterm
  rcases hfc : findCycle st rel.source fuel rel [] with _ | ⟨_ | c⟩ <;>
    rw [hfc] at hterm
  · cases hterm
  · have hv : some (Except.ok (none : Option String)) =
        some (Except.ok v) := hterm
    injection hv with hv2
    injection hv2 with hv3
    subst hv3
    constructor
    · constructor
      · rintro ⟨msg, hmsg⟩
        cases hmsg
      · intro hre
        exact absurd hre
          (findCycle_none_not_reaches st rel.source fuel rel [] hfc)
    · intro msg hmsg
      cases hmsg
  · rcases hlab : lookupDict cfg.labels rel.type with _ | label <;>
      rw [hlab] at hterm
    · have hv : some (Except.error (α := Option String) PyError.keyError) =
          some (Except.ok v) := hterm
      injection hv with hv2
      injection hv2
    · have hv : some (Except.ok (some ("Cycle in " ++ label ++ ": " ++
          String.intercalate " -> " (c.map rn)))) =
          some (Except.ok v) := hterm
      injection hv with hv2
      injection hv2 with hv3
      obtain ⟨tail, hc, hhead, hlast, hlink⟩ :=
        findCycle_some_chain st rel.source fuel rel [] c hfc
      rw [List.nil_append] at hc
      subst hc
      subst hv3
      constructor
      · constructor
        · intro _
          exact linked_chain_reaches st rel.type c rel.destination
            rel.source hhead hlast hlink
        · intro _
          exact ⟨_, rfl⟩
      · intro msg hmsg
        injection hmsg with hmsg2
        subst hmsg2
        exact ⟨label, c, rfl, hhead, hlast, hlink, rfl⟩

theorem claim3_no_cycle_verdict_iff_path_witness :
    lookupDict cfgT.validators "T" = some "no_cycle" ∧
    validate cfgT rn0 [] relAB 5 = some (Except.ok none) ∧
    (((∃ msg, (none : Option String) = some msg) ↔
        Reaches [] "T" "b" "a") ∧
      (∀ msg, (none : Option String) = some msg → ∃ label chain,
        lookupDict cfgT.labels "T" = some label ∧
        chain.head? = some "b" ∧
        chain.getLast? = some "a" ∧
        Linked [] "T" chain ∧
        msg = "Cycle in " ++ label ++ ": " ++
          String.intercalate " -> " (chain.map rn0))) :=
  ⟨by decide, by decide,
    claim3_no_cycle_verdict_iff_path cfgT rn0 [] relAB 5 none
      (by decide) (by decide)⟩

/-- C3 counterexample: the claim as stated ("validation rejects if and
only if a stored same-type path from the destination back to the source
exists") fails on `stDiverge`: the stored path `b -> a` of type `T`
exists, so the claim demands rejection of the proposed edge `a -> b`,
but the cycle search first follows the branch `b -> 0` into the
pre-existing loop `0 -> 0` and recurses forever — validation returns no
verdict, and in particular never rejects, at any recursion depth. -/
theorem claim3_counterexample_search_never_rejects :
    Reaches stDiverge "T" "b" "a" ∧
    ∀ fuel : Nat, validate cfgT rn0 stDiverge relAB fuel = none := by
  constructor
  · refine Reaches.step
      { source := "b", destination := "a", type := "T", comment := none }
      (by decide) rfl rfl rfl (Reaches.refl "a")
  · intro fuel
    rw [validate_dispatch_no_cycle cfgT rn0 stDiverge relAB fuel (by decide)]
    exact validateNoCycle_diverges cfgT rn0 stDiverge relAB fuel
      (findCycle_stDiverge_top fuel)

/-- C4 (amended): for every resource key whose partition prefix, realm
and local id contain no occurrence of the delimiter `:`, splitting the
serialized delimiter-joined string yields exactly the original three
parts. -/
theorem claim4_roundtrip_delimiter_free (p realm lid : List Char)
    (hp : ':' ∉ p) (hr : ':' ∉ realm) (hl : ':' ∉ lid) :
    splitFullId (serializeResourceId p realm lid) = [p, realm, lid] := by
  unfold splitFullId serializeResourceId
  refine List.splitOn_intercalate [p, realm, lid] ':' ?_ (by simp)
  intro l hmem
  simp only [List.mem_cons, List.not_mem_nil, or_false] at hmem
  rcases hmem with rfl | rfl | rfl
  · exact hp
  · exact hr
  · exact hl

theorem claim4_roundtrip_delimiter_free_witness :
    (':' ∉ ([] : List Char)) ∧ ':' ∉ ['t'] ∧ ':' ∉ ['1'] ∧
    splitFullId (serializeResourceId [] ['t'] ['1']) =
      [[], ['t'], ['1']] :=
  ⟨by decide, by decide, by decide,
    claim4_roundtrip_delimiter_free [] ['t'] ['1']
      (by decide) (by decide) (by decide)⟩

/-- C4 counterexample: the claim constrains only the realm and the local
id to be delimiter-free, but a partition prefix containing the delimiter
(here `a:b`) is serialized and then split into four parts, so
parse(serialize(K)) is not K for such a key even though its realm and
local id contain no delimiter. -/
theorem claim4_counterexample_prefix_with_delimiter :
    splitFullId (serializeResourceId ['a', ':', 'b'] ['t'] ['1']) ≠
      [['a', ':', 'b'], ['t'], ['1']] := by
  decide

/-- C7: for every proposed edge of the designated hierarchical type under
the `parent_child` validator that passes the cycle check, validation
rejects the edge whenever the source already has at least one outgoing
relation of the same type, and the rejection reason names the source and
the full list of existing parent destinations. -/
theorem claim7_parent_child_single_parent (cfg : LinksConfig)
    (rn : String → String) (st : List Relation) (rel : Relation)
    (fuel : Nat) (label : String)
    (hval : lookupDict cfg.validators rel.type = some "parent_child")
    (htype : rel.type = PARENT_RELATION_TYPE)
    (hcyc : validateNoCycle cfg rn st rel fuel = some (Except.ok none))
    (hne : selectBySourceType st rel.source rel.type ≠ [])
    (hlab : lookupDict cfg.labels rel.type = some label) :
    validate cfg rn st rel fuel = some (Except.ok (some
      ("Multiple links in '" ++ label ++ "': #" ++ rn rel.source ++
        " -> [" ++
        String.intercalate ", "
          ((selectBySourceType st rel.source rel.type).map
            (fun r => rn r.destination)) ++ "]"))) := by
  rw [validate_dispatch_parent cfg rn st rel fuel hval htype]
  unfold validateParent
  rw [hcyc]
  show (if truthy none then some (Except.ok none) else _) = _
  rw [if_neg (by decide), if_pos htype]
  have hlen : (selectBySourceType st rel.source rel.type).length ≠ 0 :=
    fun h0 => hne (List.length_eq_zero.mp h0)
  rw [if_pos hlen, hlab]

theorem claim7_parent_child_single_parent_witness :
    lookupDict cfgParent.validators "parent" = some "parent_child" ∧
    validateNoCycle cfgParent rn0 stParent relT13 5 =
      some (Except.ok none) ∧
    selectBySourceType stParent "t1" "parent" ≠ [] ∧
    lookupDict cfgParent.labels "parent" = some "Parent" ∧
    validate cfgParent rn0 stParent relT13 5 =
      some (Except.ok (some "Multiple links in 'Parent': #t1 -> [t2]")) :=
  ⟨by decide, by decide, by decide, by decide,
    (claim7_parent_child_single_parent cfgParent rn0 stParent relT13 5
      "Parent" (by decide) rfl (by decide) (by decide) (by decide)).trans
      (by decide)⟩

/-- C9 counterexample: the claim states that a successful `add` returns
the RelationId string `source,destination,type` of the created relation.
The method body of `RelationsSystem.add` has no return statement: the
call succeeds (creating both rows) but its Python return value — the
second component below — is `None`, not the id string. -/
theorem claim9_counterexample_add_returns_none :
    add cfgBlocks rn0 [] "t1" "t2" "blocks" none 5 =
      some (AddResult.ok stBlocks2, (none : Option String)) ∧
    (none : Option String) ≠ some (createRelationId
      { source := "t1", destination := "t2", type := "blocks",
        comment := none }) := by
  decide

/-- C9 (amended): for every pair of resources whose ids are free of the
`,` delimiter and every configured paired relation type (with the
proposed and reverse rows not already stored), a successful `add`
creates the relation and its paired reverse row but returns `None` —
the method body has no return statement; the RelationId string
`source,destination,type` as built by `_create_relation_id`, for either
direction of the pair, afterwards addresses the pair for deletion,
removing both rows. -/
theorem claim9_relation_id_addresses_both_directions (cfg : LinksConfig)
    (rn : String → String) (st : List Relation) (s d t tp : String)
    (comment : Option String) (fuel : Nat)
    (hv : validate cfg rn st
      { source := s, destination := d, type := t, comment := comment }
      fuel = some (Except.ok none))
    (hpt : linkEndsMap cfg.links t = some (some tp))
    (hptp : linkEndsMap cfg.links tp = some (some t))
    (hf : tripleExists st s d t = false)
    (hfr : tripleExists (st ++
      [{ source := s, destination := d, type := t, comment := comment }])
      d s tp = false)
    (hcs : ',' ∉ s.data) (hcd : ',' ∉ d.data) (hct : ',' ∉ t.data)
    (hctp : ',' ∉ tp.data) :
    add cfg rn st s d t comment fuel =
      some (AddResult.ok (st ++
        [{ source := s, destination := d, type := t, comment := comment },
         { source := d, destination := s, type := tp, comment := comment }]),
        none) ∧
    delete cfg (st ++
        [{ source := s, destination := d, type := t, comment := comment },
         { source := d, destination := s, type := tp, comment := comment }])
      (createRelationId
        { source := s, destination := d, type := t, comment := comment }) =
      OpResult.ok (st.filter
        (fun r => !(keyMatch r s d t) && !(keyMatch r d s tp))) ∧
    delete cfg (st ++
        [{ source := s, destination := d, type := t, comment := comment },
         { source := d, destination := s, type := tp, comment := comment }])
      (createRelationId
        { source := d, destination := s, type := tp, comment := comment }) =
      OpResult.ok (st.filter
        (fun r => !(keyMatch r s d t) && !(keyMatch r d s tp))) := by
  have hfilter : (st ++
      [({ source := s, destination := d, type := t, comment := comment } :
          Relation),
       { source := d, destination := s, type := tp, comment := comment }]).filter
      (fun r => !(keyMatch r s d t) && !(keyMatch r d s tp)) =
      st.filter (fun r => !(keyMatch r s d t) && !(keyMatch r d s tp)) := by
    refine filter_drop_rows st
      { source := s, destination := d, type := t, comment := comment }
      { source := d, destination := s, type := tp, comment := comment }
      (fun r => !(keyMatch r s d t) && !(keyMatch r d s tp)) ?_ ?_
    · simp [keyMatch]
    · simp [keyMatch]
  refine ⟨?_, ?_, ?_⟩
  · unfold add addRelation
    simp only [hv, hf, hpt, hfr, Bool.false_eq_true, if_false, cloneReverted]
  · rw [delete_parsed cfg _ _ s d t
      (parse_createRelationId
        { source := s, destination := d, type := t, comment := comment }
        hcs hcd hct),
      deleteRelation_paired cfg _ s d t tp hpt, hfilter]
  · rw [delete_parsed cfg _ _ d s tp
      (parse_createRelationId
        { source := d, destination := s, type := tp, comment := comment }
        hcd hcs hctp),
      deleteRelation_paired cfg _ d s tp t hptp]
    have hswap : (st ++
        [({ source := s, destination := d, type := t, comment := comment } :
            Relation),
         { source := d, destination := s, type := tp, comment := comment }]).filter
        (fun r => !(keyMatch r d s tp) && !(keyMatch r s d t)) =
        (st ++
        [({ source := s, destination := d, type := t, comment := comment } :
            Relation),
         { source := d, destination := s, type := tp, comment := comment }]).filter
        (fun r => !(keyMatch r s d t) && !(keyMatch r d s tp)) :=
      List.filter_congr (fun r _ => by rw [Bool.and_comm])
    rw [hswap, hfilter]

theorem claim9_relation_id_addresses_both_directions_witness :
    validate cfgBlocks rn0 []
      { source := "t1", destination := "t2", type := "blocks", comment := none }
      5 = some (Except.ok none) ∧
    linkEndsMap cfgBlocks.links "blocks" = some (some "blocked_by") ∧
    linkEndsMap cfgBlocks.links "blocked_by" = some (some "blocks") ∧
    tripleExists [] "t1" "t2" "blocks" = false ∧
    tripleExists
      [{ source := "t1", destination := "t2", type := "blocks", comment := none }]
      "t2" "t1" "blocked_by" = false ∧
    (',' ∉ ("t1").data) ∧ (',' ∉ ("t2").data) ∧ (',' ∉ ("blocks").data) ∧
    (',' ∉ ("blocked_by").data) ∧
    (add cfgBlocks rn0 [] "t1" "t2" "blocks" none 5 =
        some (AddResult.ok stBlocks2, none) ∧
      delete cfgBlocks stBlocks2 (createRelationId
        { source := "t1", destination := "t2", type := "blocks",
          comment := none }) = OpResult.ok [] ∧
      delete cfgBlocks stBlocks2 (createRelationId
        { source := "t2", destination := "t1", type := "blocked_by",
          comment := none }) = OpResult.ok []) :=
  ⟨by decide, by decide, by decide, by decide, by decide, by decide,
    by decide, by decide, by decide,
    claim9_relation_id_addresses_both_directions cfgBlocks rn0 [] "t1" "t2"
      "blocks" "blocked_by" none 5 (by decide) (by decide) (by decide)
      (by decide) (by decide) (by decide) (by decide) (by decide)
      (by decide)⟩

end Bloodhound
